import Mathlib

/-!
Verification model of a minimal user-account HTTP service (two observed
variants: a PostgreSQL-backed one, `index.js`, and a MySQL-backed one).
The service exposes registration, login, password change, user listing,
update and deletion behind JWT authentication and an admin role check.

Embedding conventions:
* The credential store is a list of user rows plus a next-id counter; the
  single-statement SQL queries of the source are modelled as list
  operations with the store's unique-email constraint made explicit.
* The password hasher is an external capability (`hash`/`compare`);
  it is modelled as an injective tagging so that `compare p d` holds
  exactly when `d` was produced by hashing `p`.
* A signed token is modelled as its decoded payload, its expiry epoch
  second, and the secret it was signed with; verification succeeds
  exactly when the secrets agree and the clock is before expiry
  (the jsonwebtoken library treats `exp <= now` as expired).
* The `Authorization` header is modelled as the list of its
  space-separated words, a word being either a plain string or a
  serialized token; `none` is an absent header. The JS guard computes
  `authHeader && authHeader.split(' ')[1]`, so an empty header string
  (the one falsy non-absent value, split form `[lit ""]`) short-circuits
  to the empty-string token rather than to `undefined`.
* `res.sendStatus(n)` produces no JSON payload; its body is `Body.empty`.
* Request body fields are `Option String`; JS falsiness of a field is
  absence or the empty string.
-/

namespace Profile

/-- A stored user row: `id, name, email, password` (a one-way digest),
`role`, as in the `users` table used by both variants. -/
structure User where
  id : Nat
  name : String
  email : String
  password : String
  role : String
deriving DecidableEq, Repr

/-- The credential store: the rows of the `users` table plus the
store-assigned auto-increment counter for the next `id`. -/
structure Db where
  rows : List User
  nextId : Nat
deriving DecidableEq, Repr

/-- The identity payload the login handler signs into a token:
`{ id: user.id, email: user.email, role: user.role }`. -/
structure Claims where
  id : Nat
  email : String
  role : String
deriving DecidableEq, Repr

/-- A signed token: its payload, its expiry (epoch second) and the
secret it was signed with (standing for the signature). -/
structure Token where
  payload : Claims
  exp : Nat
  secret : String
deriving DecidableEq, Repr

/-- `jwt.sign(payload, secret, { expiresIn: '1h' })` at epoch second
`now`: the expiry is one hour after issuance. -/
def jwtSign (payload : Claims) (secret : String) (now : Nat) : Token :=
  { payload := payload, exp := now + 3600, secret := secret }

/-- The failure modes of `jwt.verify`. -/
inductive JwtError where
  | malformed
  | invalidSignature
  | expired
deriving DecidableEq, Repr

/-- One space-separated word of the `Authorization` header value:
either a plain string (such as the scheme name `"Bearer"`) or a
serialized signed token. -/
inductive HWord where
  | lit (s : String)
  | tok (t : Token)
deriving DecidableEq, Repr

/-- `jwt.verify(token, secret)` at epoch second `now` on one header
word: a plain string is not a well-formed signed token; a token fails
on a secret mismatch or when expired (`exp <= now`), and otherwise
yields its decoded payload. -/
def jwtVerifyWord (secret : String) (now : Nat) : HWord → Except JwtError Claims
  | .lit _ => .error .malformed
  | .tok t =>
    if t.secret = secret then
      if now < t.exp then .ok t.payload else .error .expired
    else .error .invalidSignature

/-- `authHeader && authHeader.split(' ')[1]` of both variants: with no
header the token is `null`; with the empty header (split form
`[lit ""]`, the falsy string) the `&&` short-circuits to the empty
string itself; otherwise the token is the second word, absent when the
header has fewer than two words. -/
def extractToken : Option (List HWord) → Option HWord
  | none => none
  | some ws => if ws = [HWord.lit ""] then some (HWord.lit "") else ws[1]?

/-- Outcome of a guard middleware: either it short-circuits with a
status (`res.sendStatus`), or it calls `next()` with the decoded
claims attached to `req.user`. -/
inductive GuardResult where
  | respond (status : Nat)
  | proceed (user : Claims)
deriving DecidableEq, Repr

/-- The `authenticateToken` middleware of both variants: extract the
token from the `Authorization` header; `401` when it is null, `403`
when `jwt.verify` fails, and otherwise attach the decoded claims and
proceed. -/
def authenticateToken (secret : String) (now : Nat)
    (authHeader : Option (List HWord)) : GuardResult :=
  match extractToken authHeader with
  | none => .respond 401
  | some w =>
    match jwtVerifyWord secret now w with
    | .error _ => .respond 403
    | .ok u => .proceed u

/-- The `authorizeAdmin` middleware of both variants:
`req.user && req.user.role === 'admin'` proceeds, anything else
(including an absent `req.user`) responds `403`. -/
def authorizeAdmin : Option Claims → GuardResult
  | some u => if u.role = "admin" then .proceed u else .respond 403
  | none => .respond 403

/-- `bcrypt.hash` (external capability): an injective one-way tagging. -/
def bcryptHash (plaintext : String) : String :=
  "bcrypt$10$" ++ plaintext

/-- `bcrypt.compare` (external capability): true exactly when the
digest was produced from the plaintext. -/
def bcryptCompare (plaintext digest : String) : Bool :=
  digest = bcryptHash plaintext

/-- The projection `SELECT id, name, email, role` used by the list
route: a user row without its password digest. -/
structure PublicUser where
  id : Nat
  name : String
  email : String
  role : String
deriving DecidableEq, Repr

/-- Drop the password digest from a user row. -/
def publicView (u : User) : PublicUser :=
  { id := u.id, name := u.name, email := u.email, role := u.role }

/-- The JSON payloads the handlers produce. `empty` stands for a
response with no JSON payload (`res.sendStatus` / `res.send()`). -/
inductive Body where
  | empty
  | errorMsg (msg : String)
  | message (msg : String)
  | created (id : Nat) (name email : String)
  | loginOk (msg : String) (token : Token)
  | userList (rows : List PublicUser)
  | updated (id : Nat) (name email role : String)
deriving DecidableEq, Repr

/-- An HTTP response: status code and JSON payload. -/
structure Response where
  status : Nat
  body : Body
deriving DecidableEq, Repr

/-- `res.sendStatus(n)`: the status with no JSON payload. -/
def sendStatus (n : Nat) : Response :=
  { status := n, body := .empty }

def regInvalidMsg : String := "名前、メールアドレス、8文字以上のパスワードは必須です。"
def dupEmailMsg : String := "そのメールアドレスは既に使用されています。"
def serverErrMsg : String := "サーバーエラーが発生しました。"
def loginInvalidMsg : String := "emailとpasswordは必須です。"
def authFailMsg : String := "認証に失敗しました。"
def loginOkMsg : String := "ログイン成功"
def pwInvalidMsg : String := "パスワードは8文字以上で入力してください。"
def pwUpdatedMsg : String := "パスワードが正常に更新されました。"
def notFoundMsg : String := "指定されたユーザーは見つかりません。"
def updInvalidMsg : String := "name, email, roleは必須です。"

/-- JS falsiness of an optional string body field: absent or empty. -/
def falsy : Option String → Bool
  | none => true
  | some s => s = ""

/-- Body of `POST /users`. -/
structure RegisterBody where
  name : Option String
  email : Option String
  password : Option String
deriving DecidableEq, Repr

/-- Body of `POST /login`. -/
structure LoginBody where
  email : Option String
  password : Option String
deriving DecidableEq, Repr

/-- Body of `PUT /users/me/password`. -/
structure PwBody where
  newPassword : Option String
deriving DecidableEq, Repr

/-- Body of `PUT /users/:id` (MySQL variant only). -/
structure UpdateBody where
  name : Option String
  email : Option String
  role : Option String
deriving DecidableEq, Repr

/-- The registration validation of both variants:
`!name || !email || !password || password.length < 8` rejects. -/
def postUsersValid (b : RegisterBody) : Bool :=
  !(falsy b.name || falsy b.email || falsy b.password
    || decide ((b.password.getD "").length < 8))

/-- `INSERT INTO users (name, email, password) VALUES ...` against the
PostgreSQL store: the unique-email constraint rejects a duplicate with
the driver error code `23505`; otherwise the store assigns the next id
(returned via `RETURNING id`).

Modelled from the spec for the part outside `src/`: the `users` table
schema is not in the repository; per the data model its `role` column
defaults to the non-admin role, written `"user"` here. -/
def pgInsert (db : Db) (name email digest : String) :
    Except String (Db × Nat) :=
  if db.rows.any (fun u => u.email == email) then .error "23505"
  else .ok ({ rows := db.rows ++ [⟨db.nextId, name, email, digest, "user"⟩],
              nextId := db.nextId + 1 }, db.nextId)

/-- The same insertion against the MySQL store: a duplicate email
surfaces as the driver error code `ER_DUP_ENTRY`; the assigned id is
returned via `result.insertId`. -/
def myInsert (db : Db) (name email digest : String) :
    Except String (Db × Nat) :=
  if db.rows.any (fun u => u.email == email) then .error "ER_DUP_ENTRY"
  else .ok ({ rows := db.rows ++ [⟨db.nextId, name, email, digest, "user"⟩],
              nextId := db.nextId + 1 }, db.nextId)

/-- The `catch` of the PostgreSQL `POST /users` handler, mapping a
store error code to a response: `23505` becomes `409`, every other
code becomes `500`. -/
def registerCatchPg (code : String) : Response :=
  if code = "23505" then { status := 409, body := .errorMsg dupEmailMsg }
  else { status := 500, body := .errorMsg serverErrMsg }

/-- The `catch` of the MySQL `POST /users` handler: `ER_DUP_ENTRY`
becomes `409`, every other code becomes `500`. -/
def registerCatchMy (code : String) : Response :=
  if code = "ER_DUP_ENTRY" then { status := 409, body := .errorMsg dupEmailMsg }
  else { status := 500, body := .errorMsg serverErrMsg }

/-- `POST /users` of the PostgreSQL variant. -/
def postUsersPg (db : Db) (b : RegisterBody) : Response × Db :=
  if postUsersValid b then
    match pgInsert db (b.name.getD "") (b.email.getD "")
        (bcryptHash (b.password.getD "")) with
    | .ok (db2, newId) =>
      ({ status := 201,
         body := .created newId (b.name.getD "") (b.email.getD "") }, db2)
    | .error code => (registerCatchPg code, db)
  else ({ status := 400, body := .errorMsg regInvalidMsg }, db)

/-- `POST /users` of the MySQL variant. -/
def postUsersMy (db : Db) (b : RegisterBody) : Response × Db :=
  if postUsersValid b then
    match myInsert db (b.name.getD "") (b.email.getD "")
        (bcryptHash (b.password.getD "")) with
    | .ok (db2, newId) =>
      ({ status := 201,
         body := .created newId (b.name.getD "") (b.email.getD "") }, db2)
    | .error code => (registerCatchMy code, db)
  else ({ status := 400, body := .errorMsg regInvalidMsg }, db)

/-- `POST /login` of the PostgreSQL variant: missing fields give `400`;
`SELECT * FROM users WHERE email = ...` returning no row gives `401`;
a password mismatch on the first returned row gives the same `401`
payload; a match signs `{id, email, role}` into a one-hour token. -/
def postLoginPg (secret : String) (now : Nat) (db : Db) (b : LoginBody) :
    Response × Db :=
  if falsy b.email || falsy b.password then
    ({ status := 400, body := .errorMsg loginInvalidMsg }, db)
  else
    match db.rows.filter (fun u => u.email == b.email.getD "") with
    | [] => ({ status := 401, body := .errorMsg authFailMsg }, db)
    | user :: _ =>
      if bcryptCompare (b.password.getD "") user.password then
        ({ status := 200,
           body := .loginOk loginOkMsg
             (jwtSign ⟨user.id, user.email, user.role⟩ secret now) }, db)
      else ({ status := 401, body := .errorMsg authFailMsg }, db)

/-- `POST /login` of the MySQL variant (same logic against its store). -/
def postLoginMy (secret : String) (now : Nat) (db : Db) (b : LoginBody) :
    Response × Db :=
  if falsy b.email || falsy b.password then
    ({ status := 400, body := .errorMsg loginInvalidMsg }, db)
  else
    match db.rows.filter (fun u => u.email == b.email.getD "") with
    | [] => ({ status := 401, body := .errorMsg authFailMsg }, db)
    | user :: _ =>
      if bcryptCompare (b.password.getD "") user.password then
        ({ status := 200,
           body := .loginOk loginOkMsg
             (jwtSign ⟨user.id, user.email, user.role⟩ secret now) }, db)
      else ({ status := 401, body := .errorMsg authFailMsg }, db)

/-- `PUT /users/me/password` of the PostgreSQL variant (after
authentication): an absent or short `newPassword` gives `400`;
otherwise `UPDATE users SET password = ... WHERE id = ...`. -/
def putPasswordPg (db : Db) (userId : Nat) (b : PwBody) : Response × Db :=
  if falsy b.newPassword || decide ((b.newPassword.getD "").length < 8) then
    ({ status := 400, body := .errorMsg pwInvalidMsg }, db)
  else
    ({ status := 200, body := .message pwUpdatedMsg },
     { db with rows := db.rows.map (fun u =>
         if u.id = userId then
           { u with password := bcryptHash (b.newPassword.getD "") }
         else u) })

/-- `PUT /users/me/password` of the MySQL variant. -/
def putPasswordMy (db : Db) (userId : Nat) (b : PwBody) : Response × Db :=
  if falsy b.newPassword || decide ((b.newPassword.getD "").length < 8) then
    ({ status := 400, body := .errorMsg pwInvalidMsg }, db)
  else
    ({ status := 200, body := .message pwUpdatedMsg },
     { db with rows := db.rows.map (fun u =>
         if u.id = userId then
           { u with password := bcryptHash (b.newPassword.getD "") }
         else u) })

/-- `GET /users` of the PostgreSQL variant (after both guards):
`SELECT id, name, email, role FROM users`. -/
def getUsersPg (db : Db) : Response × Db :=
  ({ status := 200, body := .userList (db.rows.map publicView) }, db)

/-- `GET /users` of the MySQL variant. -/
def getUsersMy (db : Db) : Response × Db :=
  ({ status := 200, body := .userList (db.rows.map publicView) }, db)

/-- `PUT /users/:id` of the MySQL variant (after both guards): missing
fields give `400`; `UPDATE users SET name, email, role WHERE id = ...`
touching no row gives `404`, otherwise `200` with the updated record. -/
def putUserMy (db : Db) (uid : Nat) (b : UpdateBody) : Response × Db :=
  if falsy b.name || falsy b.email || falsy b.role then
    ({ status := 400, body := .errorMsg updInvalidMsg }, db)
  else
    let affected := db.rows.countP (fun u => u.id == uid)
    let db2 : Db := { db with rows := db.rows.map (fun u =>
      if u.id = uid then
        { u with name := b.name.getD "", email := b.email.getD "",
                 role := b.role.getD "" }
      else u) }
    if affected = 0 then
      ({ status := 404, body := .errorMsg notFoundMsg }, db2)
    else
      ({ status := 200,
         body := .updated uid (b.name.getD "") (b.email.getD "")
           (b.role.getD "") }, db2)

/-- `DELETE /users/:id` of the PostgreSQL variant (after both guards):
`DELETE FROM users WHERE id = ...`; a zero row count gives `404`,
otherwise `204` with no body. -/
def deleteUserPg (db : Db) (uid : Nat) : Response × Db :=
  let removed := db.rows.countP (fun u => u.id == uid)
  let db2 : Db := { db with rows := db.rows.filter (fun u => !(u.id == uid)) }
  if removed = 0 then ({ status := 404, body := .errorMsg notFoundMsg }, db2)
  else ({ status := 204, body := .empty }, db2)

/-- `DELETE /users/:id` of the MySQL variant (`result.affectedRows`). -/
def deleteUserMy (db : Db) (uid : Nat) : Response × Db :=
  let removed := db.rows.countP (fun u => u.id == uid)
  let db2 : Db := { db with rows := db.rows.filter (fun u => !(u.id == uid)) }
  if removed = 0 then ({ status := 404, body := .errorMsg notFoundMsg }, db2)
  else ({ status := 204, body := .empty }, db2)

/-- A parsed request to one of the service's routes. -/
inductive RouteReq where
  | register (b : RegisterBody)
  | login (b : LoginBody)
  | changePassword (b : PwBody)
  | listUsers
  | updateUser (uid : Nat) (b : UpdateBody)
  | deleteUser (uid : Nat)
deriving DecidableEq, Repr

/-- An incoming HTTP request: the `Authorization` header (as its
space-split words) and the routed method/path/body. -/
structure Request where
  authHeader : Option (List HWord)
  route : RouteReq
deriving DecidableEq, Repr

/-- Run the `authenticateToken` guard in front of a handler, as the
Express middleware chain does. -/
def withAuth (secret : String) (now : Nat) (h : Option (List HWord))
    (db : Db) (k : Claims → Response × Db) : Response × Db :=
  match authenticateToken secret now h with
  | .respond s => (sendStatus s, db)
  | .proceed u => k u

/-- Run the `authorizeAdmin` guard in front of a handler. -/
def withAdmin (u : Claims) (db : Db) (k : Claims → Response × Db) :
    Response × Db :=
  match authorizeAdmin (some u) with
  | .respond s => (sendStatus s, db)
  | .proceed v => k v

/-- The full PostgreSQL variant: routes with their declared guard
chains. This variant has no `PUT /users/:id` route; the framework
answers such a request with its default `404` and no JSON payload. -/
def handlePg (secret : String) (now : Nat) (db : Db) (req : Request) :
    Response × Db :=
  match req.route with
  | .register b => postUsersPg db b
  | .login b => postLoginPg secret now db b
  | .changePassword b =>
    withAuth secret now req.authHeader db (fun u => putPasswordPg db u.id b)
  | .listUsers =>
    withAuth secret now req.authHeader db (fun u =>
      withAdmin u db (fun _ => getUsersPg db))
  | .updateUser _ _ => ({ status := 404, body := .empty }, db)
  | .deleteUser uid =>
    withAuth secret now req.authHeader db (fun u =>
      withAdmin u db (fun _ => deleteUserPg db uid))

/-- The full MySQL variant, including its `PUT /users/:id` route. -/
def handleMy (secret : String) (now : Nat) (db : Db) (req : Request) :
    Response × Db :=
  match req.route with
  | .register b => postUsersMy db b
  | .login b => postLoginMy secret now db b
  | .changePassword b =>
    withAuth secret now req.authHeader db (fun u => putPasswordMy db u.id b)
  | .listUsers =>
    withAuth secret now req.authHeader db (fun u =>
      withAdmin u db (fun _ => getUsersMy db))
  | .updateUser uid b =>
    withAuth secret now req.authHeader db (fun u =>
      withAdmin u db (fun _ => putUserMy db uid b))
  | .deleteUser uid =>
    withAuth secret now req.authHeader db (fun u =>
      withAdmin u db (fun _ => deleteUserMy db uid))

/-- All fixed message literals the handlers can put into a payload. -/
def fixedMsgs : List String :=
  [regInvalidMsg, dupEmailMsg, serverErrMsg, loginInvalidMsg, authFailMsg,
   loginOkMsg, pwInvalidMsg, pwUpdatedMsg, notFoundMsg, updInvalidMsg]

/-- The strings of an optional body field. -/
def optToList : Option String → List String
  | none => []
  | some s => [s]

/-- The string values a request body carries. -/
def reqStrings : RouteReq → List String
  | .register b => optToList b.name ++ optToList b.email ++ optToList b.password
  | .login b => optToList b.email ++ optToList b.password
  | .changePassword b => optToList b.newPassword
  | .listUsers => []
  | .updateUser _ b => optToList b.name ++ optToList b.email ++ optToList b.role
  | .deleteUser _ => []

/-- The string values serialized into a token: the payload's email and
role, and the signature (standing in for the signing secret). -/
def tokenStrings (t : Token) : List String :=
  [t.payload.email, t.payload.role, t.secret]

/-- Every string value occurring in a response payload. Numeric
fields (ids, expiry) are not strings and are serialized unquoted. -/
def bodyStrings : Body → List String
  | .empty => []
  | .errorMsg m => [m]
  | .message m => [m]
  | .created _ n e => [n, e]
  | .loginOk m t => m :: tokenStrings t
  | .userList rows => rows.flatMap (fun r => [r.name, r.email, r.role])
  | .updated _ n e r => [n, e, r]

/-- C1: the authenticate guard extracts the bearer token from the
`Authorization` header under the `Bearer <token>` scheme; an absent
token fails with `401` and no body, a present but invalid or expired
token fails with `403` and no body, and a valid token attaches the
decoded claims and proceeds. -/
theorem authenticateToken_contract (secret : String) (now : Nat) (t : Token) :
    authenticateToken secret now none = .respond 401
    ∧ authenticateToken secret now (some [HWord.lit "Bearer"]) = .respond 401
    ∧ (t.secret ≠ secret ∨ t.exp ≤ now →
        authenticateToken secret now (some [HWord.lit "Bearer", HWord.tok t])
          = .respond 403)
    ∧ (t.secret = secret → now < t.exp →
        authenticateToken secret now (some [HWord.lit "Bearer", HWord.tok t])
          = .proceed t.payload) := by
  refine ⟨rfl, by simp [authenticateToken, extractToken], ?_, ?_⟩
  · rintro (h | h)
    · simp [authenticateToken, extractToken, jwtVerifyWord, h]
    · by_cases hs : t.secret = secret
      · simp [authenticateToken, extractToken, jwtVerifyWord, hs,
          Nat.not_lt.mpr h]
      · simp [authenticateToken, extractToken, jwtVerifyWord, hs]
  · intro hs hlt
    simp [authenticateToken, extractToken, jwtVerifyWord, hs, hlt]

/-- Witness for C1: a concrete valid token proceeds with its claims,
and the same token after expiry is rejected with `403`. -/
theorem authenticateToken_contract_witness :
    authenticateToken "s" 0 (some [HWord.lit "Bearer",
        HWord.tok ⟨⟨1, "a@b.c", "admin"⟩, 3600, "s"⟩])
      = .proceed ⟨1, "a@b.c", "admin"⟩
    ∧ authenticateToken "s" 4000 (some [HWord.lit "Bearer",
        HWord.tok ⟨⟨1, "a@b.c", "admin"⟩, 3600, "s"⟩])
      = .respond 403 :=
  ⟨(authenticateToken_contract "s" 0 ⟨⟨1, "a@b.c", "admin"⟩, 3600, "s"⟩).2.2.2
      rfl (by decide),
   (authenticateToken_contract "s" 4000 ⟨⟨1, "a@b.c", "admin"⟩, 3600, "s"⟩).2.2.1
      (Or.inr (by decide))⟩

/-- C10: the authorize guard is total at its interface: with no
identity attached it responds `403` (it never throws and never
proceeds), and on any input it either responds `403` or proceeds with
an attached identity whose role is `admin`. -/
theorem authorizeAdmin_total (ou : Option Claims) :
    authorizeAdmin none = .respond 403
    ∧ ((∃ u, ou = some u ∧ u.role = "admin" ∧ authorizeAdmin ou = .proceed u)
       ∨ authorizeAdmin ou = .respond 403) := by
  refine ⟨rfl, ?_⟩
  match ou with
  | none => exact Or.inr rfl
  | some u =>
    by_cases h : u.role = "admin"
    · exact Or.inl ⟨u, rfl, h, by simp [authorizeAdmin, h]⟩
    · exact Or.inr (by simp [authorizeAdmin, h])

/-- C2: on every admin-only route (list users, update user, delete
user) of either variant, an authenticated identity whose role is not
`admin` receives `403` with no body and the handler never runs (the
store is untouched); an `admin` identity reaches the handler. -/
theorem adminRoutes_roleGate (secret : String) (now : Nat) (t : Token)
    (db : Db) (uid : Nat) (b : UpdateBody)
    (hsec : t.secret = secret) (hexp : now < t.exp) :
    (t.payload.role ≠ "admin" →
      handlePg secret now db ⟨some [HWord.lit "Bearer", HWord.tok t], .listUsers⟩
        = (sendStatus 403, db)
      ∧ handlePg secret now db
          ⟨some [HWord.lit "Bearer", HWord.tok t], .deleteUser uid⟩
        = (sendStatus 403, db)
      ∧ handleMy secret now db ⟨some [HWord.lit "Bearer", HWord.tok t], .listUsers⟩
        = (sendStatus 403, db)
      ∧ handleMy secret now db
          ⟨some [HWord.lit "Bearer", HWord.tok t], .updateUser uid b⟩
        = (sendStatus 403, db)
      ∧ handleMy secret now db
          ⟨some [HWord.lit "Bearer", HWord.tok t], .deleteUser uid⟩
        = (sendStatus 403, db))
    ∧ (t.payload.role = "admin" →
      handlePg secret now db ⟨some [HWord.lit "Bearer", HWord.tok t], .listUsers⟩
        = getUsersPg db
      ∧ handlePg secret now db
          ⟨some [HWord.lit "Bearer", HWord.tok t], .deleteUser uid⟩
        = deleteUserPg db uid
      ∧ handleMy secret now db ⟨some [HWord.lit "Bearer", HWord.tok t], .listUsers⟩
        = getUsersMy db
      ∧ handleMy secret now db
          ⟨some [HWord.lit "Bearer", HWord.tok t], .updateUser uid b⟩
        = putUserMy db uid b
      ∧ handleMy secret now db
          ⟨some [HWord.lit "Bearer", HWord.tok t], .deleteUser uid⟩
        = deleteUserMy db uid) := by
  constructor <;> intro hrole <;>
    refine ⟨?_, ?_, ?_, ?_, ?_⟩ <;>
    simp [handlePg, handleMy, withAuth, withAdmin, authenticateToken,
      extractToken, jwtVerifyWord, authorizeAdmin, hsec, hexp, hrole]

/-- Witness for C2: with a concrete non-admin token the list route of
the PostgreSQL variant answers `403` and leaves a one-row store
untouched. -/
theorem adminRoutes_roleGate_witness :
    handlePg "s" 0 ⟨[⟨1, "n", "e@x", "d", "user"⟩], 2⟩
        ⟨some [HWord.lit "Bearer", HWord.tok ⟨⟨1, "e@x", "user"⟩, 3600, "s"⟩],
         .listUsers⟩
      = (sendStatus 403, ⟨[⟨1, "n", "e@x", "d", "user"⟩], 2⟩) :=
  ((adminRoutes_roleGate "s" 0 ⟨⟨1, "e@x", "user"⟩, 3600, "s"⟩
      ⟨[⟨1, "n", "e@x", "d", "user"⟩], 2⟩ 1 ⟨none, none, none⟩
      rfl (by decide)).1 (by decide)).1

/-- C3: a registration whose `name`, `email` or `password` field is
missing, or whose password is shorter than eight characters, is
answered with `400` and the store is unchanged, in both variants. -/
theorem postUsers_validation (db : Db) (b : RegisterBody)
    (h : b.name = none ∨ b.email = none ∨ b.password = none
         ∨ ∃ p, b.password = some p ∧ p.length < 8) :
    postUsersPg db b = ({ status := 400, body := .errorMsg regInvalidMsg }, db)
    ∧ postUsersMy db b = ({ status := 400, body := .errorMsg regInvalidMsg }, db) := by
  have hv : postUsersValid b = false := by
    rcases h with h | h | h | ⟨p, hp, hlen⟩
    · simp [postUsersValid, falsy, h]
    · simp [postUsersValid, falsy, h]
    · simp [postUsersValid, falsy, h]
    · simp [postUsersValid, falsy, hp, hlen]
  exact ⟨by simp [postUsersPg, hv], by simp [postUsersMy, hv]⟩

/-- Witness for C3: a concrete seven-character password is rejected
with `400` and a one-row store is unchanged. -/
theorem postUsers_validation_witness :
    postUsersPg ⟨[⟨1, "n", "e@x", "d", "user"⟩], 2⟩
        ⟨some "Bob", some "b@x", some "1234567"⟩
      = ({ status := 400, body := .errorMsg regInvalidMsg },
         ⟨[⟨1, "n", "e@x", "d", "user"⟩], 2⟩) :=
  (postUsers_validation ⟨[⟨1, "n", "e@x", "d", "user"⟩], 2⟩
      ⟨some "Bob", some "b@x", some "1234567"⟩
      (Or.inr (Or.inr (Or.inr ⟨"1234567", rfl, by decide⟩)))).1

/-- C4: the registration catch maps the driver's unique-constraint
code (`23505` for PostgreSQL, `ER_DUP_ENTRY` for MySQL) to `409` and
every other store error code to `500`; registering a second time with
an already-stored email yields `409`, leaves the store unchanged, and
exactly one record exists for that email. -/
theorem postUsers_conflict (db db1 : Db) (b : RegisterBody) (r1 : Response)
    (c : String)
    (hv : postUsersValid b = true)
    (h0 : db.rows.countP (fun u => u.email == b.email.getD "") = 0)
    (hr1 : postUsersPg db b = (r1, db1)) :
    r1.status = 201
    ∧ db1.rows.countP (fun u => u.email == b.email.getD "") = 1
    ∧ postUsersPg db1 b = ({ status := 409, body := .errorMsg dupEmailMsg }, db1)
    ∧ postUsersMy db1 b = ({ status := 409, body := .errorMsg dupEmailMsg }, db1)
    ∧ registerCatchPg "23505" = { status := 409, body := .errorMsg dupEmailMsg }
    ∧ registerCatchMy "ER_DUP_ENTRY"
        = { status := 409, body := .errorMsg dupEmailMsg }
    ∧ (c ≠ "23505" →
        registerCatchPg c = { status := 500, body := .errorMsg serverErrMsg })
    ∧ (c ≠ "ER_DUP_ENTRY" →
        registerCatchMy c = { status := 500, body := .errorMsg serverErrMsg }) := by
  have hany : db.rows.any (fun u => u.email == b.email.getD "") = false := by
    rw [List.any_eq_false]
    exact List.countP_eq_zero.mp h0
  have hpg1 : postUsersPg db b
      = ({ status := 201,
           body := .created db.nextId (b.name.getD "") (b.email.getD "") },
         { rows := db.rows ++ [⟨db.nextId, b.name.getD "", b.email.getD "",
             bcryptHash (b.password.getD ""), "user"⟩],
           nextId := db.nextId + 1 }) := by
    simp [postUsersPg, pgInsert, hv, hany]
  have hpair := hr1.symm.trans hpg1
  rw [Prod.mk.injEq] at hpair
  obtain ⟨hr, hdb⟩ := hpair
  subst hr; subst hdb
  refine ⟨rfl, ?_, ?_, ?_, rfl, rfl, ?_, ?_⟩
  · simp [h0]
  · simp [postUsersPg, pgInsert, hv, hany, registerCatchPg]
  · simp [postUsersMy, myInsert, hv, hany, registerCatchMy]
  · intro hc; simp [registerCatchPg, hc]
  · intro hc; simp [registerCatchMy, hc]

/-- Witness for C4: against a store already holding the email `a@x`,
a second registration with `a@x` returns `409` and leaves the store
unchanged. -/
theorem postUsers_conflict_witness :
    postUsersPg ⟨[⟨1, "Alice", "a@x", bcryptHash "password1", "user"⟩], 2⟩
        ⟨some "Alice", some "a@x", some "password1"⟩
      = ({ status := 409, body := .errorMsg dupEmailMsg },
         ⟨[⟨1, "Alice", "a@x", bcryptHash "password1", "user"⟩], 2⟩) :=
  (postUsers_conflict ⟨[], 1⟩
      ⟨[⟨1, "Alice", "a@x", bcryptHash "password1", "user"⟩], 2⟩
      ⟨some "Alice", some "a@x", some "password1"⟩
      { status := 201, body := .created 1 "Alice" "a@x" } "XX"
      (by decide) rfl (by decide)).2.2.1

/-- C5: a login with an email not in the store and a login with a
stored email but a mismatched password both answer `401` with the
same error payload, and the store is untouched, in both variants. -/
theorem login_enumeration_resistance (secret : String) (now : Nat) (db : Db)
    (e1 p1 e2 p2 : String) (u : User) (rest : List User)
    (he1 : e1 ≠ "") (hp1 : p1 ≠ "") (he2 : e2 ≠ "") (hp2 : p2 ≠ "")
    (h1 : ∀ x ∈ db.rows, x.email ≠ e1)
    (h2 : db.rows.filter (fun x => x.email == e2) = u :: rest)
    (hm : bcryptCompare p2 u.password = false) :
    postLoginPg secret now db ⟨some e1, some p1⟩
      = ({ status := 401, body := .errorMsg authFailMsg }, db)
    ∧ postLoginPg secret now db ⟨some e2, some p2⟩
      = ({ status := 401, body := .errorMsg authFailMsg }, db)
    ∧ postLoginMy secret now db ⟨some e1, some p1⟩
      = ({ status := 401, body := .errorMsg authFailMsg }, db)
    ∧ postLoginMy secret now db ⟨some e2, some p2⟩
      = ({ status := 401, body := .errorMsg authFailMsg }, db)
    ∧ (postLoginPg secret now db ⟨some e1, some p1⟩).1
      = (postLoginPg secret now db ⟨some e2, some p2⟩).1 := by
  have hf1 : db.rows.filter (fun x => x.email == e1) = [] := by
    rw [List.filter_eq_nil_iff]
    intro a ha
    simp [h1 a ha]
  have w1 : postLoginPg secret now db ⟨some e1, some p1⟩
      = ({ status := 401, body := .errorMsg authFailMsg }, db) := by
    simp [postLoginPg, falsy, he1, hp1, hf1]
  have w2 : postLoginPg secret now db ⟨some e2, some p2⟩
      = ({ status := 401, body := .errorMsg authFailMsg }, db) := by
    simp [postLoginPg, falsy, he2, hp2, h2, hm]
  have w3 : postLoginMy secret now db ⟨some e1, some p1⟩
      = ({ status := 401, body := .errorMsg authFailMsg }, db) := by
    simp [postLoginMy, falsy, he1, hp1, hf1]
  have w4 : postLoginMy secret now db ⟨some e2, some p2⟩
      = ({ status := 401, body := .errorMsg authFailMsg }, db) := by
    simp [postLoginMy, falsy, he2, hp2, h2, hm]
  exact ⟨w1, w2, w3, w4, by rw [w1, w2]⟩

/-- Witness for C5: unknown email `ghost@x` and wrong password against
stored `e@x` both yield the same `401` payload. -/
theorem login_enumeration_resistance_witness :
    postLoginPg "s" 0 ⟨[⟨1, "n", "e@x", bcryptHash "rightpass", "user"⟩], 2⟩
        ⟨some "ghost@x", some "whatever1"⟩
      = ({ status := 401, body := .errorMsg authFailMsg },
         ⟨[⟨1, "n", "e@x", bcryptHash "rightpass", "user"⟩], 2⟩)
    ∧ postLoginPg "s" 0 ⟨[⟨1, "n", "e@x", bcryptHash "rightpass", "user"⟩], 2⟩
        ⟨some "e@x", some "wrongpass"⟩
      = ({ status := 401, body := .errorMsg authFailMsg },
         ⟨[⟨1, "n", "e@x", bcryptHash "rightpass", "user"⟩], 2⟩) :=
  ⟨(login_enumeration_resistance "s" 0
      ⟨[⟨1, "n", "e@x", bcryptHash "rightpass", "user"⟩], 2⟩
      "ghost@x" "whatever1" "e@x" "wrongpass"
      ⟨1, "n", "e@x", bcryptHash "rightpass", "user"⟩ []
      (by decide) (by decide) (by decide) (by decide)
      (by decide) (by decide) (by decide)).1,
   (login_enumeration_resistance "s" 0
      ⟨[⟨1, "n", "e@x", bcryptHash "rightpass", "user"⟩], 2⟩
      "ghost@x" "whatever1" "e@x" "wrongpass"
      ⟨1, "n", "e@x", bcryptHash "rightpass", "user"⟩ []
      (by decide) (by decide) (by decide) (by decide)
      (by decide) (by decide) (by decide)).2.1⟩

/-- C6: a token issued by a successful login carries exactly the
logged-in user's `{id, email, role}` plus an expiry one hour after
issuance; it authenticates 59 minutes after issuance and is rejected
with `403` 61 minutes after issuance. -/
theorem login_token_expiry (secret : String) (now : Nat) (db db2 : Db)
    (b : LoginBody) (m : String) (t : Token) (u : User) (rest : List User)
    (hu : db.rows.filter (fun x => x.email == b.email.getD "") = u :: rest)
    (hres : postLoginPg secret now db b
      = ({ status := 200, body := .loginOk m t }, db2)) :
    t.payload = { id := u.id, email := u.email, role := u.role }
    ∧ t.exp = now + 3600
    ∧ authenticateToken secret (now + 3540)
        (some [HWord.lit "Bearer", HWord.tok t]) = .proceed t.payload
    ∧ authenticateToken secret (now + 3660)
        (some [HWord.lit "Bearer", HWord.tok t]) = .respond 403 := by
  simp only [postLoginPg, hu] at hres
  split at hres
  · simp at hres
  · split at hres
    · rw [Prod.mk.injEq, Response.mk.injEq] at hres
      obtain ⟨⟨-, hb⟩, -⟩ := hres
      rw [Body.loginOk.injEq] at hb
      obtain ⟨-, ht⟩ := hb
      subst ht
      refine ⟨rfl, rfl, ?_, ?_⟩
      · have h1 : now + 3540 < now + 3600 := by omega
        simp [authenticateToken, extractToken, jwtVerifyWord, jwtSign, h1]
      · have h2 : ¬(now + 3660 < now + 3600) := by omega
        simp [authenticateToken, extractToken, jwtVerifyWord, jwtSign, h2]
    · simp at hres

/-- Witness for C6: a token from a concrete successful login at time 0
authenticates at 3540 s and is rejected at 3660 s. -/
theorem login_token_expiry_witness :
    authenticateToken "s" 3540 (some [HWord.lit "Bearer",
        HWord.tok ⟨⟨1, "e@x", "user"⟩, 3600, "s"⟩]) = .proceed ⟨1, "e@x", "user"⟩
    ∧ authenticateToken "s" 3660 (some [HWord.lit "Bearer",
        HWord.tok ⟨⟨1, "e@x", "user"⟩, 3600, "s"⟩]) = .respond 403 :=
  ⟨(login_token_expiry "s" 0
      ⟨[⟨1, "n", "e@x", bcryptHash "password1", "user"⟩], 2⟩
      ⟨[⟨1, "n", "e@x", bcryptHash "password1", "user"⟩], 2⟩
      ⟨some "e@x", some "password1"⟩ loginOkMsg
      ⟨⟨1, "e@x", "user"⟩, 3600, "s"⟩
      ⟨1, "n", "e@x", bcryptHash "password1", "user"⟩ []
      (by decide) (by decide)).2.2.1,
   (login_token_expiry "s" 0
      ⟨[⟨1, "n", "e@x", bcryptHash "password1", "user"⟩], 2⟩
      ⟨[⟨1, "n", "e@x", bcryptHash "password1", "user"⟩], 2⟩
      ⟨some "e@x", some "password1"⟩ loginOkMsg
      ⟨⟨1, "e@x", "user"⟩, 3600, "s"⟩
      ⟨1, "n", "e@x", bcryptHash "password1", "user"⟩ []
      (by decide) (by decide)).2.2.2⟩

/-- Filtering out an id held by no row keeps every row. -/
theorem filter_id_eq_self (l : List User) (uid : Nat)
    (h : ∀ x ∈ l, x.id ≠ uid) : l.filter (fun x => !(x.id == uid)) = l := by
  rw [List.filter_eq_self]
  intro a ha
  simp [h a ha]

/-- With pairwise-distinct ids, filtering out the id of a present row
removes exactly that row. -/
theorem filter_id_eq_erase (l : List User) (u : User)
    (hnd : (l.map User.id).Nodup) (hu : u ∈ l) :
    l.filter (fun x => !(x.id == u.id)) = l.erase u := by
  induction l with
  | nil => simp at hu
  | cons a l ih =>
    rw [List.map_cons, List.nodup_cons] at hnd
    rcases List.mem_cons.mp hu with rfl | hmem
    · rw [List.erase_cons_head, List.filter_cons]
      simp only [beq_self_eq_true, Bool.not_true, Bool.false_eq_true, if_false]
      apply filter_id_eq_self
      intro x hx he
      exact hnd.1 (he ▸ List.mem_map_of_mem User.id hx)
    · have haid : (a.id == u.id) = false := by
        rw [beq_eq_false_iff_ne]
        intro he
        exact hnd.1 (by rw [he]; exact List.mem_map_of_mem User.id hmem)
      have hne : ¬((a == u) = true) := fun he => by
        rw [beq_iff_eq] at he
        subst he
        simp at haid
      rw [List.erase_cons_tail hne, List.filter_cons]
      simp [haid, ih hnd.2 hmem]

/-- C7: on an admin-authorized `DELETE /users/:id`, a missing id gives
`404` and an unchanged store; an existing id gives `204` with no body
and removes exactly that record, in both variants. -/
theorem deleteUser_frame (secret : String) (now : Nat) (t : Token) (db : Db)
    (uid : Nat) (u : User)
    (hsec : t.secret = secret) (hexp : now < t.exp)
    (hadmin : t.payload.role = "admin") :
    ((∀ x ∈ db.rows, x.id ≠ uid) →
      handlePg secret now db
          ⟨some [HWord.lit "Bearer", HWord.tok t], .deleteUser uid⟩
        = ({ status := 404, body := .errorMsg notFoundMsg }, db)
      ∧ handleMy secret now db
          ⟨some [HWord.lit "Bearer", HWord.tok t], .deleteUser uid⟩
        = ({ status := 404, body := .errorMsg notFoundMsg }, db))
    ∧ ((db.rows.map User.id).Nodup → u ∈ db.rows → u.id = uid →
      handlePg secret now db
          ⟨some [HWord.lit "Bearer", HWord.tok t], .deleteUser uid⟩
        = ({ status := 204, body := .empty },
           { rows := db.rows.erase u, nextId := db.nextId })
      ∧ handleMy secret now db
          ⟨some [HWord.lit "Bearer", HWord.tok t], .deleteUser uid⟩
        = ({ status := 204, body := .empty },
           { rows := db.rows.erase u, nextId := db.nextId })) := by
  constructor
  · intro h
    have hc : db.rows.countP (fun x => x.id == uid) = 0 :=
      List.countP_eq_zero.mpr (fun a ha => by simp [h a ha])
    have hfe := filter_id_eq_self db.rows uid h
    constructor <;>
      simp [handlePg, handleMy, withAuth, withAdmin, authenticateToken,
        extractToken, jwtVerifyWord, authorizeAdmin, hsec, hexp, hadmin,
        deleteUserPg, deleteUserMy, hc, hfe]
  · intro hnd hu hid
    subst hid
    have hc0 : ¬(db.rows.countP (fun x => x.id == u.id) = 0) := by
      intro h0
      exact absurd (beq_self_eq_true u.id) ((List.countP_eq_zero.mp h0) u hu)
    have hfe := filter_id_eq_erase db.rows u hnd hu
    constructor <;>
      simp [handlePg, handleMy, withAuth, withAdmin, authenticateToken,
        extractToken, jwtVerifyWord, authorizeAdmin, hsec, hexp, hadmin,
        deleteUserPg, deleteUserMy, hc0, hfe]

/-- Witness for C7: an admin deleting the only stored user (id 1)
gets `204` and leaves an empty store. -/
theorem deleteUser_frame_witness :
    handlePg "s" 0 ⟨[⟨1, "n", "e@x", "d", "user"⟩], 2⟩
        ⟨some [HWord.lit "Bearer", HWord.tok ⟨⟨7, "a@x", "admin"⟩, 3600, "s"⟩],
         .deleteUser 1⟩
      = ({ status := 204, body := .empty }, ⟨[], 2⟩) :=
  ((deleteUser_frame "s" 0 ⟨⟨7, "a@x", "admin"⟩, 3600, "s"⟩
      ⟨[⟨1, "n", "e@x", "d", "user"⟩], 2⟩ 1 ⟨1, "n", "e@x", "d", "user"⟩
      rfl (by decide) rfl).2 (by decide) (by decide) rfl).1

/-- C9: on the register, login, change-password, list-users and
delete-user routes, the PostgreSQL and MySQL variants produce the
same response and the same resulting store for every request against
stores with the same contents. -/
theorem variants_agree (secret : String) (now : Nat) (db : Db) (req : Request)
    (h : ∀ uid b, req.route ≠ RouteReq.updateUser uid b) :
    handlePg secret now db req = handleMy secret now db req := by
  obtain ⟨ah, route⟩ := req
  cases route with
  | register b =>
    simp only [handlePg, handleMy]
    by_cases hvb : postUsersValid b = true
    · by_cases hd : db.rows.any (fun u => u.email == b.email.getD "") = true
      · simp [postUsersPg, postUsersMy, pgInsert, myInsert, hvb, hd,
          registerCatchPg, registerCatchMy]
      · rw [Bool.not_eq_true] at hd
        simp [postUsersPg, postUsersMy, pgInsert, myInsert, hvb, hd]
    · rw [Bool.not_eq_true] at hvb
      simp [postUsersPg, postUsersMy, hvb]
  | login b => rfl
  | changePassword b => rfl
  | listUsers => rfl
  | updateUser uid b => exact absurd rfl (h uid b)
  | deleteUser uid => rfl

/-- Witness for C9: both variants answer an unauthenticated list
request over an empty store identically. -/
theorem variants_agree_witness :
    handlePg "s" 0 ⟨[], 1⟩ ⟨none, .listUsers⟩
      = handleMy "s" 0 ⟨[], 1⟩ ⟨none, .listUsers⟩ :=
  variants_agree "s" 0 ⟨[], 1⟩ ⟨none, .listUsers⟩
    (fun _ _ hx => RouteReq.noConfusion hx)

/-- Registration responses only carry fixed messages or request
fields. -/
theorem noPw_register (db : Db) (b : RegisterBody) (p : String)
    (hfix : ∀ m ∈ fixedMsgs, p ≠ m)
    (hreq : ∀ s ∈ reqStrings (.register b), p ≠ s) :
    p ∉ bodyStrings (postUsersPg db b).1.body
    ∧ p ∉ bodyStrings (postUsersMy db b).1.body := by
  by_cases hv : postUsersValid b = true
  · have hn : falsy b.name = false := by
      cases hx : falsy b.name
      · rfl
      · simp [postUsersValid, hx] at hv
    have he : falsy b.email = false := by
      cases hx : falsy b.email
      · rfl
      · simp [postUsersValid, hx] at hv
    have hpn : p ≠ b.name.getD "" := by
      cases hbn : b.name with
      | none => rw [hbn] at hn; simp [falsy] at hn
      | some n => exact hreq n (by simp [reqStrings, optToList, hbn])
    have hpe : p ≠ b.email.getD "" := by
      cases hbe : b.email with
      | none => rw [hbe] at he; simp [falsy] at he
      | some e => exact hreq e (by simp [reqStrings, optToList, hbe])
    by_cases hd : db.rows.any (fun x => x.email == b.email.getD "") = true
    · constructor <;>
        simp [postUsersPg, postUsersMy, pgInsert, myInsert, hv, hd,
          registerCatchPg, registerCatchMy, bodyStrings,
          hfix dupEmailMsg (by simp [fixedMsgs])]
    · rw [Bool.not_eq_true] at hd
      constructor <;>
        simp [postUsersPg, postUsersMy, pgInsert, myInsert, hv, hd,
          bodyStrings, hpn, hpe]
  · rw [Bool.not_eq_true] at hv
    constructor <;>
      simp [postUsersPg, postUsersMy, hv, bodyStrings,
        hfix regInvalidMsg (by simp [fixedMsgs])]

/-- Login responses only carry fixed messages, stored non-password
fields of the matched user, and the signing secret. -/
theorem noPw_login (secret : String) (now : Nat) (db : Db) (b : LoginBody)
    (p : String)
    (hfix : ∀ m ∈ fixedMsgs, p ≠ m)
    (hstore : ∀ u ∈ db.rows, p ≠ u.name ∧ p ≠ u.email ∧ p ≠ u.role)
    (hsecret : p ≠ secret) :
    p ∉ bodyStrings (postLoginPg secret now db b).1.body
    ∧ p ∉ bodyStrings (postLoginMy secret now db b).1.body := by
  have key : p ∉ bodyStrings (postLoginPg secret now db b).1.body := by
    by_cases hf : (falsy b.email || falsy b.password) = true
    · simp [postLoginPg, hf, bodyStrings,
        hfix loginInvalidMsg (by simp [fixedMsgs])]
    · rw [Bool.not_eq_true] at hf
      cases hfl : db.rows.filter (fun x => x.email == b.email.getD "") with
      | nil =>
        simp [postLoginPg, hf, hfl, bodyStrings,
          hfix authFailMsg (by simp [fixedMsgs])]
      | cons u rest =>
        have hmem : u ∈ db.rows :=
          List.mem_of_mem_filter (by rw [hfl]; exact List.mem_cons_self u rest)
        obtain ⟨-, hue, hur⟩ := hstore u hmem
        by_cases hcmp : bcryptCompare (b.password.getD "") u.password = true
        · simp [postLoginPg, hf, hfl, hcmp, bodyStrings, tokenStrings,
            jwtSign, hfix loginOkMsg (by simp [fixedMsgs]), hue, hur, hsecret]
        · rw [Bool.not_eq_true] at hcmp
          simp [postLoginPg, hf, hfl, hcmp, bodyStrings,
            hfix authFailMsg (by simp [fixedMsgs])]
  exact ⟨key, key⟩

/-- Password-change responses only carry fixed messages. -/
theorem noPw_changePassword (db : Db) (uid : Nat) (b : PwBody) (p : String)
    (hfix : ∀ m ∈ fixedMsgs, p ≠ m) :
    p ∉ bodyStrings (putPasswordPg db uid b).1.body
    ∧ p ∉ bodyStrings (putPasswordMy db uid b).1.body := by
  have key : p ∉ bodyStrings (putPasswordPg db uid b).1.body := by
    by_cases h : (falsy b.newPassword
        || decide ((b.newPassword.getD "").length < 8)) = true
    · simp [putPasswordPg, h, bodyStrings,
        hfix pwInvalidMsg (by simp [fixedMsgs])]
    · rw [Bool.not_eq_true] at h
      simp [putPasswordPg, h, bodyStrings,
        hfix pwUpdatedMsg (by simp [fixedMsgs])]
  exact ⟨key, key⟩

/-- The list response only carries stored non-password fields. -/
theorem noPw_listUsers (db : Db) (p : String)
    (hstore : ∀ u ∈ db.rows, p ≠ u.name ∧ p ≠ u.email ∧ p ≠ u.role) :
    p ∉ bodyStrings (getUsersPg db).1.body := by
  intro hp
  simp only [getUsersPg, bodyStrings, List.mem_flatMap, List.mem_map] at hp
  obtain ⟨r, ⟨u, hu, rfl⟩, hpr⟩ := hp
  obtain ⟨h1, h2, h3⟩ := hstore u hu
  simp [publicView] at hpr
  rcases hpr with h | h | h
  · exact h1 h
  · exact h2 h
  · exact h3 h

/-- Admin-update responses only carry fixed messages or request
fields. -/
theorem noPw_updateUser (db : Db) (uid : Nat) (b : UpdateBody) (p : String)
    (hfix : ∀ m ∈ fixedMsgs, p ≠ m)
    (hreq : ∀ s ∈ reqStrings (.updateUser uid b), p ≠ s) :
    p ∉ bodyStrings (putUserMy db uid b).1.body := by
  by_cases hv : (falsy b.name || falsy b.email || falsy b.role) = true
  · simp [putUserMy, hv, bodyStrings, hfix updInvalidMsg (by simp [fixedMsgs])]
  · rw [Bool.not_eq_true] at hv
    have hn : falsy b.name = false := by
      cases hx : falsy b.name
      · rfl
      · rw [hx] at hv; simp at hv
    have he : falsy b.email = false := by
      cases hx : falsy b.email
      · rfl
      · rw [hx] at hv; simp at hv
    have hr : falsy b.role = false := by
      cases hx : falsy b.role
      · rfl
      · rw [hx] at hv; simp at hv
    have hpn : p ≠ b.name.getD "" := by
      cases hbn : b.name with
      | none => rw [hbn] at hn; simp [falsy] at hn
      | some n => exact hreq n (by simp [reqStrings, optToList, hbn])
    have hpe : p ≠ b.email.getD "" := by
      cases hbe : b.email with
      | none => rw [hbe] at he; simp [falsy] at he
      | some e => exact hreq e (by simp [reqStrings, optToList, hbe])
    have hpr : p ≠ b.role.getD "" := by
      cases hbr : b.role with
      | none => rw [hbr] at hr; simp [falsy] at hr
      | some r => exact hreq r (by simp [reqStrings, optToList, hbr])
    by_cases hc : db.rows.countP (fun x => x.id == uid) = 0
    · simp [putUserMy, hv, hc, bodyStrings,
        hfix notFoundMsg (by simp [fixedMsgs])]
    · simp [putUserMy, hv, hc, bodyStrings, hpn, hpe, hpr]

/-- Delete responses only carry fixed messages or nothing. -/
theorem noPw_deleteUser (db : Db) (uid : Nat) (p : String)
    (hfix : ∀ m ∈ fixedMsgs, p ≠ m) :
    p ∉ bodyStrings (deleteUserPg db uid).1.body
    ∧ p ∉ bodyStrings (deleteUserMy db uid).1.body := by
  have key : p ∉ bodyStrings (deleteUserPg db uid).1.body := by
    by_cases hc : db.rows.countP (fun x => x.id == uid) = 0
    · simp [deleteUserPg, hc, bodyStrings,
        hfix notFoundMsg (by simp [fixedMsgs])]
    · simp [deleteUserPg, hc, bodyStrings]
  exact ⟨key, key⟩

/-- The authenticate guard's own responses carry no strings. -/
theorem noPw_withAuth (secret : String) (now : Nat) (h : Option (List HWord))
    (db : Db) (k : Claims → Response × Db) (p : String)
    (hk : ∀ u, p ∉ bodyStrings (k u).1.body) :
    p ∉ bodyStrings (withAuth secret now h db k).1.body := by
  simp only [withAuth]
  cases hA : authenticateToken secret now h with
  | respond s => simp [sendStatus, bodyStrings]
  | proceed u => exact hk u

/-- The authorize guard's own responses carry no strings. -/
theorem noPw_withAdmin (u : Claims) (db : Db) (k : Claims → Response × Db)
    (p : String) (hk : ∀ v, p ∉ bodyStrings (k v).1.body) :
    p ∉ bodyStrings (withAdmin u db k).1.body := by
  simp only [withAdmin]
  cases hA : authorizeAdmin (some u) with
  | respond s => simp [sendStatus, bodyStrings]
  | proceed v => exact hk v

/-- C8: an admin-authorized `GET /users` answers `200` with, for every
stored user, exactly the fields `{id, name, email, role}`; and across
every route of both variants, a string that is not a fixed message,
not a stored name, email or role, not the signing secret, and not a
request-body field (in particular any stored password digest distinct
from those) never occurs in a response payload. -/
theorem listUsers_public_projection (secret : String) (now : Nat) (db : Db)
    (req : Request) (t : Token) (p : String)
    (hsec : t.secret = secret) (hexp : now < t.exp)
    (hadmin : t.payload.role = "admin")
    (hfix : p ∉ fixedMsgs)
    (hstore : ∀ u ∈ db.rows, p ≠ u.name ∧ p ≠ u.email ∧ p ≠ u.role)
    (hsecret : p ≠ secret)
    (hreq : p ∉ reqStrings req.route) :
    handlePg secret now db ⟨some [HWord.lit "Bearer", HWord.tok t], .listUsers⟩
      = ({ status := 200, body := .userList (db.rows.map publicView) }, db)
    ∧ handleMy secret now db ⟨some [HWord.lit "Bearer", HWord.tok t], .listUsers⟩
      = ({ status := 200, body := .userList (db.rows.map publicView) }, db)
    ∧ p ∉ bodyStrings (handlePg secret now db req).1.body
    ∧ p ∉ bodyStrings (handleMy secret now db req).1.body := by
  have hfix' : ∀ m ∈ fixedMsgs, p ≠ m := fun m hm he => hfix (he ▸ hm)
  have hreq' : ∀ s ∈ reqStrings req.route, p ≠ s := fun s hs he => hreq (he ▸ hs)
  refine ⟨?_, ?_, ?_, ?_⟩
  · simp [handlePg, withAuth, withAdmin, authenticateToken, extractToken,
      jwtVerifyWord, authorizeAdmin, hsec, hexp, hadmin, getUsersPg]
  · simp [handleMy, withAuth, withAdmin, authenticateToken, extractToken,
      jwtVerifyWord, authorizeAdmin, hsec, hexp, hadmin, getUsersMy]
  · obtain ⟨ah, route⟩ := req
    cases route with
    | register b => exact (noPw_register db b p hfix' hreq').1
    | login b => exact (noPw_login secret now db b p hfix' hstore hsecret).1
    | changePassword b =>
      exact noPw_withAuth secret now ah db _ p
        (fun u => (noPw_changePassword db u.id b p hfix').1)
    | listUsers =>
      exact noPw_withAuth secret now ah db _ p (fun u =>
        noPw_withAdmin u db _ p (fun _ => noPw_listUsers db p hstore))
    | updateUser uid b => simp [handlePg, bodyStrings]
    | deleteUser uid =>
      exact noPw_withAuth secret now ah db _ p (fun u =>
        noPw_withAdmin u db _ p (fun _ => (noPw_deleteUser db uid p hfix').1))
  · obtain ⟨ah, route⟩ := req
    cases route with
    | register b => exact (noPw_register db b p hfix' hreq').2
    | login b => exact (noPw_login secret now db b p hfix' hstore hsecret).2
    | changePassword b =>
      exact noPw_withAuth secret now ah db _ p
        (fun u => (noPw_changePassword db u.id b p hfix').2)
    | listUsers =>
      exact noPw_withAuth secret now ah db _ p (fun u =>
        noPw_withAdmin u db _ p (fun _ => noPw_listUsers db p hstore))
    | updateUser uid b =>
      exact noPw_withAuth secret now ah db _ p (fun u =>
        noPw_withAdmin u db _ p (fun _ => noPw_updateUser db uid b p hfix' hreq'))
    | deleteUser uid =>
      exact noPw_withAuth secret now ah db _ p (fun u =>
        noPw_withAdmin u db _ p (fun _ => (noPw_deleteUser db uid p hfix').2))

/-- Witness for C8: a concrete stored digest does not occur in the
admin list response of a one-user store. -/
theorem listUsers_public_projection_witness :
    handlePg "s" 0 ⟨[⟨1, "n", "e@x", "pwdigest", "user"⟩], 2⟩
        ⟨some [HWord.lit "Bearer", HWord.tok ⟨⟨7, "a@x", "admin"⟩, 3600, "s"⟩],
         .listUsers⟩
      = ({ status := 200, body := .userList [⟨1, "n", "e@x", "user"⟩] },
         ⟨[⟨1, "n", "e@x", "pwdigest", "user"⟩], 2⟩)
    ∧ "pwdigest" ∉ bodyStrings (handlePg "s" 0
        ⟨[⟨1, "n", "e@x", "pwdigest", "user"⟩], 2⟩ ⟨none, .listUsers⟩).1.body :=
  ⟨(listUsers_public_projection "s" 0
      ⟨[⟨1, "n", "e@x", "pwdigest", "user"⟩], 2⟩ ⟨none, .listUsers⟩
      ⟨⟨7, "a@x", "admin"⟩, 3600, "s"⟩ "pwdigest"
      rfl (by decide) rfl (by decide) (by decide) (by decide) (by decide)).1,
   (listUsers_public_projection "s" 0
      ⟨[⟨1, "n", "e@x", "pwdigest", "user"⟩], 2⟩ ⟨none, .listUsers⟩
      ⟨⟨7, "a@x", "admin"⟩, 3600, "s"⟩ "pwdigest"
      rfl (by decide) rfl (by decide) (by decide) (by decide) (by decide)).2.2.1⟩

end Profile
